import Mathlib

/-!
Shallow embedding of `src/import-issues.py` (Trello → GitHub issue import
script) and proofs of the frozen claims about it.

Modelling conventions:

* A Python `dict` with string keys and string values is an association list
  `Dict := List (String × String)` with first-match lookup (`lookupA`) and
  Python assignment semantics (`setA`: replace the value of the first entry
  with that key in place, else append).  All dictionaries the script builds
  are string-valued.
* JSON (de)serialization (`json.dumps` / `json.loads` / `json.dump` /
  `json.load`) is modelled as the identity at the dictionary level: the
  request body carries the dictionary itself and state files store the
  dictionary itself.  For flat string dictionaries the real encode/decode
  pair is inverse, so nothing observable is lost.
* The filesystem state directory is `FS := List (String × Dict)`, a map from
  file path to decoded file content, with the same lookup/overwrite
  operations.
* The HTTP world is a function `HttpRequest → HttpResponse`.  A response
  whose JSON body fails to parse (`.json()` raises `ValueError`) has
  `body = none`.
* `requests.get/post/patch` is the `Method` carried in the request;
  `gh_request` returning `False` is `value = none`, returning the response
  is `value = some resp` (a `requests.Response` is truthy iff `.ok`, and it
  is only returned when `.ok` holds).
* Python exceptions that escape the modelled functions (`AttributeError`
  from `None.open()`, `KeyError` from `d[k]`, `ValueError` from `.json()`)
  are `PyResult.exn`.
* Line 90 of the source ends in a trailing comma, so the create-path target
  is the one-element tuple `('repos/<owner>/<repo>/issues',)`, not a plain
  string.  `ReqPath` keeps that distinction: Python `in` on a tuple tests
  element membership, and `"%s" %`-formatting a tuple yields its `repr`.
-/

/-- Association-list lookup: the value of the first entry with key `k`
(Python `d.get(k)` / `d[k]` on a dict, `json.load` result lookup). -/
def lookupA {β : Type} : List (String × β) → String → Option β
  | [], _ => none
  | p :: rest, k => if p.1 == k then some p.2 else lookupA rest k

/-- Association-list update with Python `d[k] = v` semantics: replace the
first entry with key `k` in place, else append at the end. -/
def setA {β : Type} : List (String × β) → String → β → List (String × β)
  | [], k, v => [(k, v)]
  | p :: rest, k, v => if p.1 == k then (k, v) :: rest else p :: setA rest k v

/-- `hasSubstring needle hay`: `needle` occurs contiguously in `hay`
(Python `needle in hay` for strings). -/
def hasSubstring (needle : List Char) : List Char → Bool
  | [] => needle.isEmpty
  | c :: rest => needle.isPrefixOf (c :: rest) || hasSubstring needle rest

/-- Python substring test `sub in s`. -/
def strContains (s sub : String) : Bool :=
  hasSubstring sub.data s.data

/-- A Python dict with string keys and values. -/
abbrev Dict := List (String × String)

/-- The state directory: decoded content of each state file, by path. -/
abbrev FS := List (String × Dict)

/-- HTTP method: which of `requests.get` / `requests.post` /
`requests.patch` is used as `req_fn`. -/
inductive Method
  | get
  | post
  | patch
deriving DecidableEq

/-- The `path` argument of `gh_request`.  `Card.save` passes either a plain
string (the stored issue URL, or `'user'` from `main`) or — because of the
trailing comma on the create path — a one-element tuple of a string. -/
inductive ReqPath
  | str (s : String)
  | tup1 (s : String)
deriving DecidableEq

/-- One HTTP request as issued by `req_fn(req_url, auth=..., data=data)`.
`body` is the dictionary serialized into `data` (`none` when `data` is
`None` or falsy and left unserialized). -/
structure HttpRequest where
  method : Method
  url : ReqPath
  auth : String × String
  body : Option Dict
deriving DecidableEq

/-- One HTTP response.  `body = none` models a body on which `.json()`
raises `ValueError`. -/
structure HttpResponse where
  ok : Bool
  status_code : Nat
  reason : String
  body : Option Dict

/-- The parsed command-line arguments the script uses
(`args.statedir = none` models running without `--statedir`). -/
structure Args where
  statedir : Option String
  githubroot : String
  github_owner : String
  github_repo : String
  github_user : String
  github_password : String
deriving DecidableEq

/-- A single quote character (written via its code point so that string
literals in this file stay quote-free). -/
def pyQuote : String :=
  String.singleton (Char.ofNat 39)

/-- Python `repr` of a string that contains no quote, backslash or control
character (all strings the script ever places inside the tuple are plain
`repos/<owner>/<repo>/issues` paths). -/
def pyReprStr (s : String) : String :=
  pyQuote ++ s ++ pyQuote

/-- Python `"%s" % p`: a plain string formats as itself, a one-element tuple
formats as its `repr`, e.g. `('repos/o/r/issues',)`. -/
def pyStrOfPath : ReqPath → String
  | .str s => s
  | .tup1 s => "(" ++ pyReprStr s ++ ",)"

/-- Python `'://' in path` from `gh_request`: substring test on a string,
element-membership test on a tuple. -/
def pathHasSchemeSep : ReqPath → Bool
  | .str s => strContains s "://"
  | .tup1 s => s == "://"

/-- The fallback error text `"HTTP error %d: %s" % (req.status_code,
req.reason)` from `gh_request`. -/
def synthMessage (resp : HttpResponse) : String :=
  "HTTP error " ++ toString resp.status_code ++ ": " ++ resp.reason

/-- The error text `gh_request` logs for a non-ok response: the `message`
field of the parsed JSON body (`data.get('message', ...)`) when the body
parses and has one, else the synthesized status-line text (also used when
`req.json()` raises `ValueError`). -/
def errMessage (resp : HttpResponse) : String :=
  match resp.body with
  | some d => (lookupA d "message").getD (synthMessage resp)
  | none => synthMessage resp

/-- The request `gh_request(path, args, data, req_fn)` sends: verb defaulting
(`post` when `data` is truthy, else `get`, unless `req_fn` is given), URL
resolution against `args.githubroot` unless the path contains `://`, and
basic auth from the configured credentials. -/
def gh_buildRequest (path : ReqPath) (args : Args) (data : Option Dict)
    (req_fn : Option Method) : HttpRequest :=
  let dataTruthy : Bool :=
    match data with
    | some d => !d.isEmpty
    | none => false
  let fn : Method :=
    match req_fn with
    | some m => m
    | none => if dataTruthy then .post else .get
  let req_url : ReqPath :=
    if pathHasSchemeSep path then path
    else .str (args.githubroot ++ "/" ++ pyStrOfPath path)
  { method := fn
    url := req_url
    auth := (args.github_user, args.github_password)
    body := data }

/-- What one call to `gh_request` did: the request it sent, its return value
(`none` is the Python `False`), and the messages it logged via
`logging.getLogger('github').error`. -/
structure GhResult where
  request : HttpRequest
  value : Option HttpResponse
  log : List String

/-- `gh_request(path, args, data=data, req_fn=req_fn)`: send the built
request; on `req.ok` return the response; otherwise log one error message —
the `message` field of the parsed JSON body when present, else the
synthesized status-line text — and return `False`. -/
def gh_request (world : HttpRequest → HttpResponse) (path : ReqPath)
    (args : Args) (data : Option Dict) (req_fn : Option Method) : GhResult :=
  let r := gh_buildRequest path args data req_fn
  let resp := world r
  if resp.ok then
    { request := r, value := some resp, log := [] }
  else
    { request := r, value := none, log := [errMessage resp] }

/-- One card record from the Trello export: the fields the script reads. -/
structure CardData where
  id : String
  name : String
  desc : String
deriving DecidableEq

/-- A Python exception escaping the modelled code. -/
inductive PyExn
  | attributeError
  | keyError
  | valueError
deriving DecidableEq

/-- Normal return vs an escaping exception. -/
inductive PyResult (α : Type)
  | ok (a : α)
  | exn (e : PyExn)
deriving DecidableEq

/-- `Card.__init__`: `state_file` is `<statedir>/<id>.json` when a state
directory is configured, else `None`. -/
def Card.stateFile (card : CardData) (args : Args) : Option String :=
  args.statedir.map (fun d => d ++ "/" ++ card.id ++ ".json")

/-- Everything one `Card.save()` call did: its return value (or escaping
exception), the state directory afterwards, the requests it issued and the
error messages logged on its behalf. -/
structure SaveResult where
  result : PyResult Bool
  fs : FS
  requests : List HttpRequest
  log : List String
deriving DecidableEq

/-- The tail of `Card.save` shared by both branches: set `title`/`body` on
the chosen state dict, call `gh_request` with the chosen target and verb,
and on success store the response `url` and write the state file. -/
def Card.saveFinish (world : HttpRequest → HttpResponse) (card : CardData)
    (args : Args) (fs : FS) (sf : String) (state : Dict) (req_url : ReqPath)
    (req_fn : Option Method) : SaveResult :=
  let state1 := setA (setA state "title" card.name) "body" card.desc
  let g := gh_request world req_url args (some state1) req_fn
  match g.value with
  | none => { result := .ok false, fs := fs, requests := [g.request], log := g.log }
  | some resp =>
    match resp.body with
    | none =>
      { result := .exn .valueError, fs := fs, requests := [g.request], log := g.log }
    | some bd =>
      match lookupA bd "url" with
      | none =>
        { result := .exn .keyError, fs := fs, requests := [g.request], log := g.log }
      | some u2 =>
        { result := .ok true
          fs := setA fs sf (setA state1 "url" u2)
          requests := [g.request]
          log := g.log }

/-- The create branch of `Card.save`: empty state, target the one-element
tuple `('repos/<owner>/<repo>/issues',)` (trailing comma in the source),
default verb (POST, since the payload is truthy). -/
def Card.saveCreate (world : HttpRequest → HttpResponse) (card : CardData)
    (args : Args) (fs : FS) (sf : String) : SaveResult :=
  Card.saveFinish world card args fs sf []
    (.tup1 ("repos/" ++ args.github_owner ++ "/" ++ args.github_repo ++ "/issues"))
    none

/-- `Card.save()`.  Reading `self.state` with `state_file = None` raises
`AttributeError` (only `ENOENT` is caught); a truthy stored state without a
`url` key raises `KeyError`; a truthy stored state patches its stored URL;
otherwise the create branch runs. -/
def Card.save (world : HttpRequest → HttpResponse) (card : CardData)
    (args : Args) (fs : FS) : SaveResult :=
  match Card.stateFile card args with
  | none => { result := .exn .attributeError, fs := fs, requests := [], log := [] }
  | some sf =>
    match lookupA fs sf with
    | some st =>
      if st.isEmpty then
        Card.saveCreate world card args fs sf
      else
        match lookupA st "url" with
        | none => { result := .exn .keyError, fs := fs, requests := [], log := [] }
        | some u => Card.saveFinish world card args fs sf st (.str u) (some .patch)
    | none => Card.saveCreate world card args fs sf

/-- The decoded Trello export document (the fields `main` reads). -/
structure TrelloData where
  name : Option String
  url : Option String
  cards : List CardData

/-- How the process run ends: `sys.exit(1)`, normal completion (exit 0), or
an uncaught Python exception (nonzero exit with a traceback). -/
inductive MainOutcome
  | exitCode (n : Nat)
  | completed
  | exn (e : PyExn)
deriving DecidableEq

/-- Everything `main` did after parsing: how it ended, every HTTP request
issued in order, the final state directory, and the error log. -/
structure MainResult where
  outcome : MainOutcome
  requests : List HttpRequest
  fs : FS
  log : List String

/-- `main()` after argument parsing and export loading (named `mainRun` here
because Lean reserves `main` for executables): one authenticated `GET user`;
on failure `sys.exit(1)`; then `req.json()` for the username log (raising
`ValueError` on an unparseable body); then the card loop, whose body ends in
an unconditional `return`, so at most the first card is saved. -/
def mainRun (world : HttpRequest → HttpResponse) (args : Args)
    (trello : TrelloData) (fs : FS) : MainResult :=
  let g := gh_request world (.str "user") args none none
  match g.value with
  | none => { outcome := .exitCode 1, requests := [g.request], fs := fs, log := g.log }
  | some resp =>
    match resp.body with
    | none =>
      { outcome := .exn .valueError, requests := [g.request], fs := fs, log := g.log }
    | some _ =>
      match trello.cards with
      | [] => { outcome := .completed, requests := [g.request], fs := fs, log := g.log }
      | c :: _ =>
        let s := Card.save world c args fs
        { outcome :=
            match s.result with
            | .ok _ => .completed
            | .exn e => .exn e
          requests := g.request :: s.requests
          fs := s.fs
          log := g.log ++ s.log }

/-- A concrete configuration used by the concrete runs below. -/
def demoArgs : Args :=
  { statedir := some "state"
    githubroot := "https://api.github.com"
    github_owner := "owner"
    github_repo := "repo"
    github_user := "user"
    github_password := "secret" }

/-- A concrete card used by the concrete runs below. -/
def demoCard : CardData :=
  { id := "c1", name := "Card title", desc := "Card body" }

/-- A world in which every request succeeds and returns a JSON body with a
`url` (and a `name`, as the `GET user` response has). -/
def okWorld : HttpRequest → HttpResponse := fun _ =>
  { ok := true
    status_code := 200
    reason := "OK"
    body := some [("url", "https://api.github.com/repos/owner/repo/issues/7"),
                  ("name", "Import User")] }

/-- A world in which every request fails with 401 and a parsed body carrying
a `message` field. -/
def badCredsWorld : HttpRequest → HttpResponse := fun _ =>
  { ok := false
    status_code := 401
    reason := "Unauthorized"
    body := some [("message", "Bad credentials")] }

/-- A stored state file content used by the concrete runs below: the shape a
prior successful save leaves behind. -/
def demoStoredState : Dict :=
  [("url", "https://api.github.com/repos/owner/repo/issues/7"),
   ("title", "old title"), ("body", "old body")]

/-- A state directory holding `demoStoredState` for `demoCard`. -/
def demoFS : FS := [("state/c1.json", demoStoredState)]

/-- A second concrete card, used to exercise the card loop. -/
def demoCard2 : CardData :=
  { id := "c2", name := "Second card", desc := "Second body" }

/-- A world in which every request fails with 502 and a body that parses but
has no `message` field. -/
def parsedNoMsgWorld : HttpRequest → HttpResponse := fun _ =>
  { ok := false
    status_code := 502
    reason := "Bad Gateway"
    body := some [("error", "upstream")] }

/-- A world in which every request fails with 500 and an unparseable body. -/
def rawFailWorld : HttpRequest → HttpResponse := fun _ =>
  { ok := false
    status_code := 500
    reason := "Internal Server Error"
    body := none }

/-! ### Association-list lemmas -/

theorem lookupA_setA_self {β : Type} (l : List (String × β)) (k : String) (v : β) :
    lookupA (setA l k v) k = some v := by
  induction l with
  | nil => simp [setA, lookupA]
  | cons p rest ih =>
    cases h : (p.1 == k) with
    | true => simp [setA, h, lookupA]
    | false => simp [setA, h, lookupA, ih]

theorem lookupA_setA_ne {β : Type} (l : List (String × β)) (k k2 : String) (v : β)
    (h : (k2 == k) = false) : lookupA (setA l k2 v) k = lookupA l k := by
  induction l with
  | nil => simp [setA, lookupA, h]
  | cons p rest ih =>
    cases hp : (p.1 == k2) with
    | true =>
      have hpk : p.1 = k2 := by simpa using hp
      simp [setA, hp, lookupA, hpk, h]
    | false => simp [setA, hp, lookupA, ih]

theorem setA_isEmpty {β : Type} (l : List (String × β)) (k : String) (v : β) :
    (setA l k v).isEmpty = false := by
  cases l with
  | nil => rfl
  | cons p rest =>
    cases hp : (p.1 == k) with
    | true => simp [setA, hp]
    | false => simp [setA, hp]

/-! ### `gh_request` lemmas -/

theorem gh_request_eq_ok (world : HttpRequest → HttpResponse) (path : ReqPath)
    (args : Args) (data : Option Dict) (req_fn : Option Method)
    (h : (world (gh_buildRequest path args data req_fn)).ok = true) :
    gh_request world path args data req_fn =
      { request := gh_buildRequest path args data req_fn
        value := some (world (gh_buildRequest path args data req_fn))
        log := [] } := by
  unfold gh_request
  simp [h]

theorem gh_request_eq_err (world : HttpRequest → HttpResponse) (path : ReqPath)
    (args : Args) (data : Option Dict) (req_fn : Option Method)
    (h : (world (gh_buildRequest path args data req_fn)).ok = false) :
    gh_request world path args data req_fn =
      { request := gh_buildRequest path args data req_fn
        value := none
        log := [errMessage (world (gh_buildRequest path args data req_fn))] } := by
  unfold gh_request
  simp [h]

theorem gh_buildRequest_method_some (path : ReqPath) (args : Args)
    (data : Option Dict) (m : Method) :
    (gh_buildRequest path args data (some m)).method = m := rfl

theorem gh_buildRequest_body (path : ReqPath) (args : Args) (data : Option Dict)
    (req_fn : Option Method) : (gh_buildRequest path args data req_fn).body = data := rfl

theorem gh_buildRequest_url_sep (path : ReqPath) (args : Args) (data : Option Dict)
    (req_fn : Option Method) (h : pathHasSchemeSep path = true) :
    (gh_buildRequest path args data req_fn).url = path := by
  unfold gh_buildRequest
  simp [h]


/-! ### `Card.save` lemmas -/

theorem saveFinish_requests (world : HttpRequest → HttpResponse) (card : CardData)
    (args : Args) (fs : FS) (sf : String) (state : Dict) (req_url : ReqPath)
    (req_fn : Option Method) :
    (Card.saveFinish world card args fs sf state req_url req_fn).requests =
      [gh_buildRequest req_url args
        (some (setA (setA state "title" card.name) "body" card.desc)) req_fn] := by
  simp only [Card.saveFinish]
  cases hok : (world (gh_buildRequest req_url args
      (some (setA (setA state "title" card.name) "body" card.desc)) req_fn)).ok with
  | true =>
    rw [gh_request_eq_ok _ _ _ _ _ hok]
    dsimp only
    cases (world (gh_buildRequest req_url args
        (some (setA (setA state "title" card.name) "body" card.desc)) req_fn)).body with
    | none => rfl
    | some bd =>
      dsimp only
      cases lookupA bd "url" with
      | none => rfl
      | some u2 => rfl
  | false =>
    rw [gh_request_eq_err _ _ _ _ _ hok]

theorem saveFinish_err (world : HttpRequest → HttpResponse) (card : CardData)
    (args : Args) (fs : FS) (sf : String) (state : Dict) (req_url : ReqPath)
    (req_fn : Option Method)
    (h : (world (gh_buildRequest req_url args
      (some (setA (setA state "title" card.name) "body" card.desc)) req_fn)).ok = false) :
    Card.saveFinish world card args fs sf state req_url req_fn =
      { result := .ok false
        fs := fs
        requests := [gh_buildRequest req_url args
          (some (setA (setA state "title" card.name) "body" card.desc)) req_fn]
        log := [errMessage (world (gh_buildRequest req_url args
          (some (setA (setA state "title" card.name) "body" card.desc)) req_fn))] } := by
  simp only [Card.saveFinish]
  rw [gh_request_eq_err _ _ _ _ _ h]

theorem saveFinish_ok_true_inv (world : HttpRequest → HttpResponse) (card : CardData)
    (args : Args) (fs : FS) (sf : String) (state : Dict) (req_url : ReqPath)
    (req_fn : Option Method)
    (h : (Card.saveFinish world card args fs sf state req_url req_fn).result = .ok true) :
    ∃ bd u2,
      (world (gh_buildRequest req_url args
        (some (setA (setA state "title" card.name) "body" card.desc)) req_fn)).body
          = some bd ∧
      lookupA bd "url" = some u2 ∧
      Card.saveFinish world card args fs sf state req_url req_fn =
        { result := .ok true
          fs := setA fs sf
            (setA (setA (setA state "title" card.name) "body" card.desc) "url" u2)
          requests := [gh_buildRequest req_url args
            (some (setA (setA state "title" card.name) "body" card.desc)) req_fn]
          log := [] } := by
  cases hok : (world (gh_buildRequest req_url args
      (some (setA (setA state "title" card.name) "body" card.desc)) req_fn)).ok with
  | false =>
    rw [saveFinish_err _ _ _ _ _ _ _ _ hok] at h
    simp at h
  | true =>
    simp only [Card.saveFinish] at h ⊢
    rw [gh_request_eq_ok _ _ _ _ _ hok] at h ⊢
    dsimp only at h ⊢
    cases hbd : (world (gh_buildRequest req_url args
        (some (setA (setA state "title" card.name) "body" card.desc)) req_fn)).body with
    | none =>
      rw [hbd] at h
      simp at h
    | some bd =>
      rw [hbd] at h
      dsimp only at h ⊢
      cases hu : lookupA bd "url" with
      | none =>
        rw [hu] at h
        simp at h
      | some u2 =>
        rw [hu] at h
        exact ⟨bd, u2, rfl, hu, rfl⟩

theorem save_cases (world : HttpRequest → HttpResponse) (card : CardData)
    (args : Args) (fs : FS) :
    (∃ e, Card.save world card args fs =
      { result := .exn e, fs := fs, requests := [], log := [] }) ∨
    (∃ sf base req_url req_fn, Card.stateFile card args = some sf ∧
      Card.save world card args fs =
        Card.saveFinish world card args fs sf base req_url req_fn) := by
  cases hsf : Card.stateFile card args with
  | none =>
    refine Or.inl ⟨.attributeError, ?_⟩
    simp only [Card.save, hsf]
  | some sf =>
    cases hst : lookupA fs sf with
    | none =>
      refine Or.inr ⟨sf, [],
        .tup1 ("repos/" ++ args.github_owner ++ "/" ++ args.github_repo ++ "/issues"),
        none, rfl, ?_⟩
      simp only [Card.save, hsf, hst, Card.saveCreate]
    | some st =>
      cases hne : st.isEmpty with
      | true =>
        refine Or.inr ⟨sf, [],
          .tup1 ("repos/" ++ args.github_owner ++ "/" ++ args.github_repo ++ "/issues"),
          none, rfl, ?_⟩
        simp [Card.save, hsf, hst, hne, Card.saveCreate]
      | false =>
        cases hu : lookupA st "url" with
        | none =>
          refine Or.inl ⟨.keyError, ?_⟩
          simp [Card.save, hsf, hst, hne, hu]
        | some u =>
          refine Or.inr ⟨sf, st, .str u, some .patch, rfl, ?_⟩
          simp [Card.save, hsf, hst, hne, hu]

/-! ### The claims -/

/-- C1: code behavior on the create path at a concrete card with no prior
state file: `save()` issues a POST and, on success, writes the state file
with the `url` from the response body — but the request target is the API
root joined with the Python string rendering of the one-element tuple
(trailing comma on source line 90), not the plain `repos/owner/repo/issues`
collection path resolved against the root. -/
theorem save_create_concrete_run :
    Card.save okWorld demoCard demoArgs [] =
      { result := .ok true
        fs := [("state/c1.json",
          [("title", "Card title"), ("body", "Card body"),
           ("url", "https://api.github.com/repos/owner/repo/issues/7")])]
        requests := [{ method := .post
                       url := .str ("https://api.github.com/(" ++ pyQuote ++
                         "repos/owner/repo/issues" ++ pyQuote ++ ",)")
                       auth := ("user", "secret")
                       body := some [("title", "Card title"), ("body", "Card body")] }]
        log := [] } ∧
    ReqPath.str ("https://api.github.com/(" ++ pyQuote ++
        "repos/owner/repo/issues" ++ pyQuote ++ ",)") ≠
      ReqPath.str "https://api.github.com/repos/owner/repo/issues" := by
  constructor
  · decide
  · decide

/-- C8: with no state directory configured, `save()` neither takes the
create branch nor returns a boolean: reading `self.state` dereferences
`state_file = None` and raises `AttributeError` (only `ENOENT` is caught)
before any request is issued, for every card, world and filesystem. -/
theorem save_without_statedir_raises (world : HttpRequest → HttpResponse)
    (card : CardData) (root o r u p : String) (fs : FS) :
    Card.save world card
      { statedir := none, githubroot := root, github_owner := o,
        github_repo := r, github_user := u, github_password := p } fs =
      { result := .exn .attributeError, fs := fs, requests := [], log := [] } := rfl

/-- C2: for a card whose state file exists and stores a `url` that contains
a scheme separator, `save()` issues exactly one request: a PATCH whose
target is exactly that stored URL (not the issues collection endpoint and
not the stored URL re-prefixed with the API root), with payload
`title = card.name` and `body = card.desc`. -/
theorem save_update_patches_stored_url (world : HttpRequest → HttpResponse)
    (card : CardData) (args : Args) (fs : FS) (sf : String) (st : Dict) (u : String)
    (hsf : Card.stateFile card args = some sf)
    (hst : lookupA fs sf = some st)
    (hurl : lookupA st "url" = some u)
    (hsep : strContains u "://" = true) :
    ∃ r, (Card.save world card args fs).requests = [r] ∧
      r.method = .patch ∧
      r.url = .str u ∧
      r.body.bind (fun d => lookupA d "title") = some card.name ∧
      r.body.bind (fun d => lookupA d "body") = some card.desc := by
  have hne : st.isEmpty = false := by
    cases st with
    | nil => simp [lookupA] at hurl
    | cons p rest => rfl
  have hsave : Card.save world card args fs =
      Card.saveFinish world card args fs sf st (.str u) (some .patch) := by
    simp [Card.save, hsf, hst, hne, hurl]
  refine ⟨gh_buildRequest (.str u) args
      (some (setA (setA st "title" card.name) "body" card.desc)) (some .patch),
    ?_, rfl, ?_, ?_, ?_⟩
  · rw [hsave, saveFinish_requests]
  · exact gh_buildRequest_url_sep _ _ _ _ hsep
  · rw [gh_buildRequest_body]
    show lookupA (setA (setA st "title" card.name) "body" card.desc) "title"
      = some card.name
    rw [lookupA_setA_ne _ _ _ _ (by decide), lookupA_setA_self]
  · rw [gh_buildRequest_body]
    show lookupA (setA (setA st "title" card.name) "body" card.desc) "body"
      = some card.desc
    rw [lookupA_setA_self]

/-- C2 witness: the update theorem applied at a concrete card, state
directory and stored URL. -/
theorem save_update_patches_stored_url_witness :
    Card.stateFile demoCard demoArgs = some "state/c1.json" ∧
    lookupA demoFS "state/c1.json" = some demoStoredState ∧
    lookupA demoStoredState "url"
      = some "https://api.github.com/repos/owner/repo/issues/7" ∧
    strContains "https://api.github.com/repos/owner/repo/issues/7" "://" = true ∧
    (∃ r, (Card.save okWorld demoCard demoArgs demoFS).requests = [r] ∧
      r.method = .patch ∧
      r.url = .str "https://api.github.com/repos/owner/repo/issues/7" ∧
      r.body.bind (fun d => lookupA d "title") = some demoCard.name ∧
      r.body.bind (fun d => lookupA d "body") = some demoCard.desc) :=
  ⟨rfl, rfl, rfl, by decide,
    save_update_patches_stored_url okWorld demoCard demoArgs demoFS
      "state/c1.json" demoStoredState
      "https://api.github.com/repos/owner/repo/issues/7"
      rfl rfl rfl (by decide)⟩

/-- C3: if the request actually issued by `save()` fails, `save()` returns
`False` and the state file is neither created nor overwritten: the state
directory after the failed call equals the one before it. -/
theorem save_failure_preserves_state (world : HttpRequest → HttpResponse)
    (card : CardData) (args : Args) (fs : FS)
    (hreq : (Card.save world card args fs).requests ≠ [])
    (hfail : ∀ r ∈ (Card.save world card args fs).requests, (world r).ok = false) :
    (Card.save world card args fs).result = .ok false ∧
    (Card.save world card args fs).fs = fs := by
  rcases save_cases world card args fs with ⟨e, he⟩ | ⟨sf, base, req_url, req_fn, hsf, heq⟩
  · rw [he] at hreq
    simp at hreq
  · rw [heq] at hfail ⊢
    have hr := saveFinish_requests world card args fs sf base req_url req_fn
    have hok : (world (gh_buildRequest req_url args
        (some (setA (setA base "title" card.name) "body" card.desc)) req_fn)).ok
          = false := by
      apply hfail
      rw [hr]
      simp
    rw [saveFinish_err _ _ _ _ _ _ _ _ hok]
    exact ⟨rfl, rfl⟩

/-- C3 witness: a concrete create-path save against a world in which every
request fails leaves the (empty) state directory untouched and returns
`False`. -/
theorem save_failure_preserves_state_witness :
    (Card.save badCredsWorld demoCard demoArgs []).requests ≠ [] ∧
    (∀ r ∈ (Card.save badCredsWorld demoCard demoArgs []).requests,
      (badCredsWorld r).ok = false) ∧
    ((Card.save badCredsWorld demoCard demoArgs []).result = .ok false ∧
     (Card.save badCredsWorld demoCard demoArgs []).fs = []) :=
  ⟨by decide, by decide,
    save_failure_preserves_state badCredsWorld demoCard demoArgs []
      (by decide) (by decide)⟩

/-- C4: after any successful `save()` (create or update, with a state
directory necessarily configured), the state file written for the card
stores the `url` taken from the response body, so a subsequent `save()` for
the same card — under any world — takes the update branch and issues
exactly one PATCH request rather than a create. -/
theorem save_success_writes_url_then_patches (world world2 : HttpRequest → HttpResponse)
    (card : CardData) (args : Args) (fs : FS)
    (hok : (Card.save world card args fs).result = .ok true) :
    ∃ sf r u,
      Card.stateFile card args = some sf ∧
      (Card.save world card args fs).requests = [r] ∧
      (world r).body.bind (fun bd => lookupA bd "url") = some u ∧
      (lookupA (Card.save world card args fs).fs sf).bind
        (fun st => lookupA st "url") = some u ∧
      (∃ r2, (Card.save world2 card args (Card.save world card args fs).fs).requests
          = [r2] ∧ r2.method = .patch) := by
  rcases save_cases world card args fs with ⟨e, he⟩ | ⟨sf, base, req_url, req_fn, hsf, heq⟩
  · rw [he] at hok
    simp at hok
  · rw [heq] at hok ⊢
    rcases saveFinish_ok_true_inv world card args fs sf base req_url req_fn hok with
      ⟨bd, u2, hbd, hu2, heq2⟩
    rw [heq2]
    refine ⟨sf, gh_buildRequest req_url args
      (some (setA (setA base "title" card.name) "body" card.desc)) req_fn, u2,
      hsf, rfl, ?_, ?_, ?_⟩
    · rw [hbd]
      simpa using hu2
    · rw [lookupA_setA_self]
      simpa using lookupA_setA_self _ "url" u2
    · have hsave2 : Card.save world2 card args
          (setA fs sf (setA (setA (setA base "title" card.name) "body" card.desc)
            "url" u2)) =
          Card.saveFinish world2 card args
            (setA fs sf (setA (setA (setA base "title" card.name) "body" card.desc)
              "url" u2)) sf
            (setA (setA (setA base "title" card.name) "body" card.desc) "url" u2)
            (.str u2) (some .patch) := by
        simp [Card.save, hsf, lookupA_setA_self, setA_isEmpty]
      rw [hsave2, saveFinish_requests]
      exact ⟨_, rfl, rfl⟩

/-- C4 witness: the theorem applied at a concrete first-time save in a world
in which requests succeed. -/
theorem save_success_writes_url_then_patches_witness :
    (Card.save okWorld demoCard demoArgs []).result = .ok true ∧
    (∃ sf r u,
      Card.stateFile demoCard demoArgs = some sf ∧
      (Card.save okWorld demoCard demoArgs []).requests = [r] ∧
      (okWorld r).body.bind (fun bd => lookupA bd "url") = some u ∧
      (lookupA (Card.save okWorld demoCard demoArgs []).fs sf).bind
        (fun st => lookupA st "url") = some u ∧
      (∃ r2, (Card.save okWorld demoCard demoArgs
          (Card.save okWorld demoCard demoArgs []).fs).requests
            = [r2] ∧ r2.method = .patch)) :=
  ⟨by decide,
    save_success_writes_url_then_patches okWorld okWorld demoCard demoArgs []
      (by decide)⟩

/-- C5: after a successful `save()`, reading the state file back yields
`title = card.name` and `body = card.desc` (the values written round-trip
through the modelled serialization). -/
theorem save_success_state_roundtrip (world : HttpRequest → HttpResponse)
    (card : CardData) (args : Args) (fs : FS)
    (hok : (Card.save world card args fs).result = .ok true) :
    ∃ sf st,
      Card.stateFile card args = some sf ∧
      lookupA (Card.save world card args fs).fs sf = some st ∧
      lookupA st "title" = some card.name ∧
      lookupA st "body" = some card.desc := by
  rcases save_cases world card args fs with ⟨e, he⟩ | ⟨sf, base, req_url, req_fn, hsf, heq⟩
  · rw [he] at hok
    simp at hok
  · rw [heq] at hok ⊢
    rcases saveFinish_ok_true_inv world card args fs sf base req_url req_fn hok with
      ⟨bd, u2, hbd, hu2, heq2⟩
    rw [heq2]
    refine ⟨sf, setA (setA (setA base "title" card.name) "body" card.desc) "url" u2,
      hsf, lookupA_setA_self _ _ _, ?_, ?_⟩
    · rw [lookupA_setA_ne _ _ _ _ (by decide),
        lookupA_setA_ne _ _ _ _ (by decide), lookupA_setA_self]
    · rw [lookupA_setA_ne _ _ _ _ (by decide), lookupA_setA_self]

/-- C5 witness: the round-trip theorem applied at a concrete successful
save. -/
theorem save_success_state_roundtrip_witness :
    (Card.save okWorld demoCard demoArgs []).result = .ok true ∧
    (∃ sf st,
      Card.stateFile demoCard demoArgs = some sf ∧
      lookupA (Card.save okWorld demoCard demoArgs []).fs sf = some st ∧
      lookupA st "title" = some demoCard.name ∧
      lookupA st "body" = some demoCard.desc) :=
  ⟨by decide,
    save_success_state_roundtrip okWorld demoCard demoArgs [] (by decide)⟩

/-- C6: on a non-success HTTP status, `gh_request` logs exactly one error
message — the `message` field of the parsed response body when the body
parses and contains one, otherwise the synthesized
`HTTP error <code>: <reason>` text — and returns the `False` sentinel,
which carries no structured error value, so the caller can only branch on
success versus failure. -/
theorem gh_request_error_logging (world : HttpRequest → HttpResponse)
    (path : ReqPath) (args : Args) (data : Option Dict) (req_fn : Option Method)
    (hfail : (world (gh_buildRequest path args data req_fn)).ok = false) :
    (gh_request world path args data req_fn).value = none ∧
    (gh_request world path args data req_fn).log.length = 1 ∧
    (∀ bd m, (world (gh_buildRequest path args data req_fn)).body = some bd →
      lookupA bd "message" = some m →
      (gh_request world path args data req_fn).log = [m]) ∧
    ((world (gh_buildRequest path args data req_fn)).body = none →
      (gh_request world path args data req_fn).log =
        [synthMessage (world (gh_buildRequest path args data req_fn))]) := by
  rw [gh_request_eq_err _ _ _ _ _ hfail]
  refine ⟨rfl, rfl, ?_, ?_⟩
  · intro bd m hbd hm
    simp [errMessage, hbd, hm]
  · intro hnone
    simp [errMessage, hnone]

/-- C6 witness: a concrete 401 response whose structured body carries
`message = Bad credentials` surfaces exactly that text as the single logged
error, and the call returns the `False` sentinel. -/
theorem gh_request_error_logging_witness :
    (badCredsWorld (gh_buildRequest (.str "user") demoArgs none none)).ok = false ∧
    (gh_request badCredsWorld (.str "user") demoArgs none none).value = none ∧
    (gh_request badCredsWorld (.str "user") demoArgs none none).log.length = 1 ∧
    (gh_request badCredsWorld (.str "user") demoArgs none none).log
      = ["Bad credentials"] :=
  ⟨by decide,
    (gh_request_error_logging badCredsWorld (.str "user") demoArgs none none
      (by decide)).1,
    (gh_request_error_logging badCredsWorld (.str "user") demoArgs none none
      (by decide)).2.1,
    (gh_request_error_logging badCredsWorld (.str "user") demoArgs none none
      (by decide)).2.2.1 [("message", "Bad credentials")] "Bad credentials" rfl rfl⟩

/-- C10: a non-success response whose body parses as structured text but has
no `message` field gets the same synthesized `HTTP error <code>: <reason>`
log text as an unparseable body. -/
theorem gh_request_parsed_body_no_message (world : HttpRequest → HttpResponse)
    (path : ReqPath) (args : Args) (data : Option Dict) (req_fn : Option Method)
    (bd : Dict)
    (hfail : (world (gh_buildRequest path args data req_fn)).ok = false)
    (hbd : (world (gh_buildRequest path args data req_fn)).body = some bd)
    (hm : lookupA bd "message" = none) :
    (gh_request world path args data req_fn).log =
      [synthMessage (world (gh_buildRequest path args data req_fn))] := by
  rw [gh_request_eq_err _ _ _ _ _ hfail]
  simp [errMessage, hbd, hm]

/-- C10 witness: a concrete 502 response with a parsed body lacking
`message` logs the synthesized text. -/
theorem gh_request_parsed_body_no_message_witness :
    (parsedNoMsgWorld (gh_buildRequest (.str "user") demoArgs none none)).ok = false ∧
    (parsedNoMsgWorld (gh_buildRequest (.str "user") demoArgs none none)).body
      = some [("error", "upstream")] ∧
    lookupA [("error", "upstream")] "message" = none ∧
    (gh_request parsedNoMsgWorld (.str "user") demoArgs none none).log
      = ["HTTP error 502: Bad Gateway"] :=
  ⟨by decide, rfl, rfl,
    Eq.trans
      (gh_request_parsed_body_no_message parsedNoMsgWorld (.str "user") demoArgs
        none none [("error", "upstream")] (by decide) rfl rfl)
      (by decide)⟩

/-- C7: when the initial authenticated `GET user` request fails, the run
calls `sys.exit(1)` having issued exactly that one request — which is a GET,
so zero create or update requests are ever sent — and the state directory is
untouched. -/
theorem mainRun_auth_failure_exits (world : HttpRequest → HttpResponse)
    (args : Args) (trello : TrelloData) (fs : FS)
    (hfail : (world (gh_buildRequest (.str "user") args none none)).ok = false) :
    mainRun world args trello fs =
      { outcome := .exitCode 1
        requests := [gh_buildRequest (.str "user") args none none]
        fs := fs
        log := [errMessage (world (gh_buildRequest (.str "user") args none none))] } ∧
    (gh_buildRequest (.str "user") args none none).method = .get := by
  constructor
  · simp only [mainRun]
    rw [gh_request_eq_err _ _ _ _ _ hfail]
  · rfl

/-- C7 witness: the theorem applied at a concrete run whose auth check gets
a 401, with a nonempty cards array. -/
theorem mainRun_auth_failure_exits_witness :
    (badCredsWorld (gh_buildRequest (.str "user") demoArgs none none)).ok = false ∧
    (mainRun badCredsWorld demoArgs ⟨none, none, [demoCard, demoCard2]⟩ [] =
      { outcome := .exitCode 1
        requests := [gh_buildRequest (.str "user") demoArgs none none]
        fs := []
        log := [errMessage (badCredsWorld
          (gh_buildRequest (.str "user") demoArgs none none))] } ∧
    (gh_buildRequest (.str "user") demoArgs none none).method = .get) :=
  ⟨by decide,
    mainRun_auth_failure_exits badCredsWorld demoArgs
      ⟨none, none, [demoCard, demoCard2]⟩ [] (by decide)⟩

/-- C9: with a nonempty cards array, the driver constructs an import record
and calls `save()` for the first card only and then returns out of the loop
unconditionally: the whole run result is independent of the cards after the
first, and (under a successful auth check with a parseable body) the
requests issued are the auth GET followed by exactly the requests of the
first card save, whether that save succeeded or failed. -/
theorem mainRun_processes_only_first_card (world : HttpRequest → HttpResponse)
    (args : Args) (nm u : Option String) (c : CardData) (rest : List CardData)
    (fs : FS)
    (hok : (world (gh_buildRequest (.str "user") args none none)).ok = true)
    (hbody : (world (gh_buildRequest (.str "user") args none none)).body ≠ none) :
    mainRun world args ⟨nm, u, c :: rest⟩ fs = mainRun world args ⟨nm, u, [c]⟩ fs ∧
    (mainRun world args ⟨nm, u, c :: rest⟩ fs).requests =
      gh_buildRequest (.str "user") args none none ::
        (Card.save world c args fs).requests := by
  cases hbd : (world (gh_buildRequest (.str "user") args none none)).body with
  | none => exact absurd hbd hbody
  | some bd =>
    constructor
    · simp only [mainRun]
    · simp only [mainRun]
      rw [gh_request_eq_ok _ _ _ _ _ hok]
      dsimp only
      rw [hbd]

/-- C9 witness: a concrete run over a two-card export behaves exactly as the
run over its first card alone, issuing the auth GET and one create POST. -/
theorem mainRun_processes_only_first_card_witness :
    (okWorld (gh_buildRequest (.str "user") demoArgs none none)).ok = true ∧
    (okWorld (gh_buildRequest (.str "user") demoArgs none none)).body ≠ none ∧
    (mainRun okWorld demoArgs ⟨none, none, [demoCard, demoCard2]⟩ [] =
      mainRun okWorld demoArgs ⟨none, none, [demoCard]⟩ [] ∧
    (mainRun okWorld demoArgs ⟨none, none, [demoCard, demoCard2]⟩ []).requests =
      gh_buildRequest (.str "user") demoArgs none none ::
        (Card.save okWorld demoCard demoArgs []).requests) :=
  ⟨by decide, by decide,
    mainRun_processes_only_first_card okWorld demoArgs none none demoCard
      [demoCard2] [] (by decide) (by decide)⟩
